import Mathlib

/-! Verification of `scripts/generate_assets.py` (the Prism Digital asset
generator).

Shallow embedding of the five procedural image generators and the driver
loop of `scripts/generate_assets.py`, together with proofs of the claims of the spec about them.

Conventions of the embedding:
* Python floats are idealised as exact rationals/reals; the decimal
  constants `0.2`, `0.3`, `0.5`, `0.8`, `0.6` of the source are written as
  the exact fractions `2/10`, `3/10`, `5/10`, `8/10`, `6/10`.
* The Python `int(...)` conversion truncates toward zero; it is embedded as
  `pyInt` below.
* `x ** 0.5` (square root) is embedded as `Real.sqrt`, so the pixel-level
  definitions that need a Euclidean distance live over `ℝ`; the piecewise
  colour/alpha profiles are stated generically over any linear ordered
  field with a floor, so they are executable over `ℚ`.
* The driver `main` is embedded with explicit outcomes: an operation that
  can raise is an `Except String` value, and an exception that no handler
  catches is an `Except.error` result of the embedded `main`.
-/

namespace PrismAssets

/-- Embedding of the Python conversion `int(q)`: truncation toward zero. -/
def pyInt {K : Type} [LinearOrderedField K] [FloorRing K] (q : K) : ℤ :=
  if q < 0 then -⌊-q⌋ else ⌊q⌋

/-- An RGB pixel, one `ℤ` per channel (the source works with Python ints). -/
abbrev RGB := ℤ × ℤ × ℤ

/-- An RGBA pixel. -/
abbrev RGBA := ℤ × ℤ × ℤ × ℤ

/-! ## Gradient generator (`generate_purple_gradient`, 256×256)

```python
colors = [hex_to_rgb("#1a0033"), hex_to_rgb("#4a0080"),
          hex_to_rgb("#8b00ff"), hex_to_rgb("#d580ff")]
for y in range(height):
    segment = (y / height) * (len(colors) - 1)
    idx = int(segment)
    if idx >= len(colors) - 1:
        color = colors[-1]
    else:
        t = segment - idx
        c1, c2 = colors[idx], colors[idx + 1]
        color = tuple(int(c1[i] + (c2[i] - c1[i]) * t) for i in range(3))
    for x in range(width):
        img.putpixel((x, y), color)
```
-/

/-- The four gradient stops, the hex constants of the source decoded:
`#1a0033`, `#4a0080`, `#8b00ff`, `#d580ff`. -/
def gradColors : List RGB := [(26, 0, 51), (74, 0, 128), (139, 0, 255), (213, 128, 255)]

/-- The value `segment = (y / height) * (len(colors) - 1)` with `height = 256`. -/
def gradSegment (y : ℕ) : ℚ := ((y : ℚ) / 256) * (4 - 1)

/-- The index `idx = int(segment)` (nonnegative here, so plain truncation). -/
def gradIdx (y : ℕ) : ℕ := (pyInt (gradSegment y)).toNat

/-- The interpolation branch: `t = segment - idx`,
`color = tuple(int(c1[i] + (c2[i] - c1[i]) * t) for i in range(3))`. -/
def gradInterp (y : ℕ) : RGB :=
  let t : ℚ := gradSegment y - gradIdx y
  let c1 := gradColors.getD (gradIdx y) (0, 0, 0)
  let c2 := gradColors.getD (gradIdx y + 1) (0, 0, 0)
  (pyInt ((c1.1 : ℚ) + ((c2.1 : ℚ) - (c1.1 : ℚ)) * t),
   pyInt ((c1.2.1 : ℚ) + ((c2.2.1 : ℚ) - (c1.2.1 : ℚ)) * t),
   pyInt ((c1.2.2 : ℚ) + ((c2.2.2 : ℚ) - (c1.2.2 : ℚ)) * t))

/-- The colour written to every pixel of row `y`. -/
def gradRowColor (y : ℕ) : RGB :=
  if gradIdx y ≥ 4 - 1 then gradColors.getD 3 (0, 0, 0) else gradInterp y

/-- The gradient buffer: the inner `for x` loop writes `color` to every
column, so the pixel at `(x, y)` is the row colour, independent of `x`. -/
def gradPixel (x y : ℕ) : RGB :=
  let _ := x
  gradRowColor y

/-! ## Particle sprite generators (`generate_particle_sprite`,
`generate_soft_particle_sprite`, both 64×64 RGBA)

```python
center = size // 2                      # 32
dx = x - center
dy = y - center
distance = (dx*dx + dy*dy) ** 0.5
max_distance = center
norm_dist = min(distance / max_distance, 1.0)
```

Glow profile:
```python
if norm_dist < 0.2:   alpha = 255
elif norm_dist < 0.5: alpha = int(255 * (1 - (norm_dist - 0.2) / 0.3 * 0.2))
elif norm_dist < 1.0: alpha = int(255 * (1 - (norm_dist - 0.5) / 0.5) * 0.8)
else:                 alpha = 0
```

Soft profile:
```python
if norm_dist < 0.3:   alpha = int(255 * 0.6)
elif norm_dist < 0.7: alpha = int(255 * 0.6 * (1 - (norm_dist - 0.3) / 0.4))
elif norm_dist < 1.0: alpha = int(255 * 0.6 * (1 - (norm_dist - 0.7) / 0.3) * 0.3)
else:                 alpha = 0
```

The branch formulas are factored out so that continuity of the profile at
the breakpoints can be stated about them directly. -/

/-- Glow sprite, second branch: `255 * (1 - (n - 0.2) / 0.3 * 0.2)`. -/
def glowBranch2 {K : Type} [LinearOrderedField K] (n : K) : K :=
  255 * (1 - (n - 2/10) / (3/10) * (2/10))

/-- Glow sprite, third branch: `255 * (1 - (n - 0.5) / 0.5) * 0.8`. -/
def glowBranch3 {K : Type} [LinearOrderedField K] (n : K) : K :=
  255 * (1 - (n - 5/10) / (5/10)) * (8/10)

/-- Soft sprite, first branch: `255 * 0.6` (a constant). -/
def softBranch1 {K : Type} [LinearOrderedField K] : K := 255 * (6/10)

/-- Soft sprite, second branch: `255 * 0.6 * (1 - (n - 0.3) / 0.4)`. -/
def softBranch2 {K : Type} [LinearOrderedField K] (n : K) : K :=
  255 * (6/10) * (1 - (n - 3/10) / (4/10))

/-- Soft sprite, third branch: `255 * 0.6 * (1 - (n - 0.7) / 0.3) * 0.3`. -/
def softBranch3 {K : Type} [LinearOrderedField K] (n : K) : K :=
  255 * (6/10) * (1 - (n - 7/10) / (3/10)) * (3/10)

/-- Alpha of the glow sprite as a function of the normalised distance `n`. -/
def glowAlpha {K : Type} [LinearOrderedField K] [FloorRing K] (n : K) : ℤ :=
  if n < 2/10 then 255
  else if n < 5/10 then pyInt (glowBranch2 n)
  else if n < 1 then pyInt (glowBranch3 n)
  else 0

/-- Alpha of the soft sprite as a function of the normalised distance `n`. -/
def softAlpha {K : Type} [LinearOrderedField K] [FloorRing K] (n : K) : ℤ :=
  if n < 3/10 then pyInt (softBranch1 : K)
  else if n < 7/10 then pyInt (softBranch2 n)
  else if n < 1 then pyInt (softBranch3 n)
  else 0

/-- The quantity `min(((x-32)**2 + (y-32)**2) ** 0.5 / 32, 1.0)`: the normalised distance of
pixel `(x, y)` from the sprite centre `(32, 32)`. -/
noncomputable def spriteNorm (x y : ℕ) : ℝ :=
  let dx : ℝ := (x : ℝ) - 32
  let dy : ℝ := (y : ℝ) - 32
  min (Real.sqrt (dx * dx + dy * dy) / 32) 1

/-- Pixel `(x, y)` of the glow sprite: `(255, 255, 255, alpha)`. -/
noncomputable def glowPixel (x y : ℕ) : RGBA :=
  (255, 255, 255, glowAlpha (spriteNorm x y))

/-- Pixel `(x, y)` of the soft sprite: `(255, 255, 255, alpha)`. -/
noncomputable def softPixel (x y : ℕ) : RGBA :=
  (255, 255, 255, softAlpha (spriteNorm x y))

/-! ## Matcap generator (`generate_matcap_texture`, 256×256 RGB)

```python
center_x, center_y = width // 2, height // 2        # 128, 128
dx = x - center_x
dy = y - center_y
distance = (dx*dx + dy*dy) ** 0.5
max_distance = (center_x**2 + center_y**2) ** 0.5   # sqrt(32768)
norm_dist = min(distance / max_distance, 1.0)
r = int(255 * (1 - norm_dist * 0.8))
g = int(255 * (1 - norm_dist * 0.8))
b = int(255 * (1 - norm_dist * 0.5))
```
-/

/-- The clamped normalised distance of pixel `(x, y)` from the matcap
centre `(128, 128)`. -/
noncomputable def matcapNorm (x y : ℕ) : ℝ :=
  let dx : ℝ := (x : ℝ) - 128
  let dy : ℝ := (y : ℝ) - 128
  let distance := Real.sqrt (dx * dx + dy * dy)
  let maxDistance := Real.sqrt ((128 : ℝ) ^ 2 + (128 : ℝ) ^ 2)
  min (distance / maxDistance) 1

/-- Pixel `(x, y)` of the matcap texture. -/
noncomputable def matcapPixel (x y : ℕ) : RGB :=
  let n := matcapNorm x y
  (pyInt (255 * (1 - n * (8/10))),
   pyInt (255 * (1 - n * (8/10))),
   pyInt (255 * (1 - n * (5/10))))

/-- The channel formulas exactly as the claim states them, applied to a
given normalised distance `n`: `(int(255*(1 - n*0.8)), int(255*(1 - n*0.8)),
int(255*(1 - n*0.5)))`. -/
noncomputable def matcapClaimFormula (n : ℝ) : RGB :=
  (pyInt (255 * (1 - n * (8/10))),
   pyInt (255 * (1 - n * (8/10))),
   pyInt (255 * (1 - n * (5/10))))

/-! ## Noise generator (`generate_noise_texture`, 512×512 grayscale)

```python
noise = np.random.randint(0, 256, (height, width), dtype=np.uint8)
img = Image.fromarray(noise, mode="L")
img = img.filter(ImageFilter.GaussianBlur(radius=1))
```

The random source and the Gaussian blur are external collaborators
(`numpy` and `PIL`), not code of this repository.  Following the claim,
the random source is an arbitrary grid of values in `[0, 255]` and the
blur is an arbitrary map that sends 8-bit grids to 8-bit grids (PIL mode
`"L"` images store one byte per pixel, so any filter result is again a
byte grid). -/

/-- A grayscale grid: one natural number per coordinate. -/
abbrev Grid := ℕ → ℕ → ℕ

/-- A map on grids preserves 8-bit boundedness: applied to a grid of
bytes it yields a grid of bytes. -/
def Preserves8Bit (blur : Grid → Grid) : Prop :=
  ∀ g : Grid, (∀ x y, g x y ≤ 255) → ∀ x y, blur g x y ≤ 255

/-- The noise texture: the random grid fed through the blur. -/
def noisePixel (rand : Grid) (blur : Grid → Grid) (x y : ℕ) : ℕ :=
  blur rand x y

/-! ## Driver (`main`) and `ensure_directories`

```python
def main():
    print("Generating Prism Digital assets...\n")
    ensure_directories()                 # NOT inside any try/except
    assets = [ ... five descriptors ... ]
    for asset in assets:
        try:
            img = asset["generator"]()
            output_path = OUTPUT_DIR / asset["path"] / asset["name"]
            img.save(output_path)
            print(f"✓ Generated: ...")
        except Exception as e:
            print(f"✗ Failed: ...")
            print(f"  Error: {e}\n")
    print("Asset generation complete!\n")
```

The filesystem is embedded as explicit outcomes: `dirs` is the outcome of
`ensure_directories()` (directory creation), and `attempt name` the
outcome of generating and saving the asset called `name` (generation,
path construction and `img.save` together — the body of the `try`).  An
`Except.error` value is a raised exception; `main` returning
`Except.error` is the run crashing with that exception uncaught. -/

/-- What the driver reports for one asset: the `✓ Generated` line or the
`✗ Failed` line together with the error detail. -/
inductive Report where
  | success (path name : String)
  | failure (path name err : String)
deriving DecidableEq, Repr

instance : Inhabited Report := ⟨Report.success ("") ("")⟩

/-- The five manifest entries, in order: `(name, path)`. -/
def assetManifest : List (String × String) :=
  [("purple-gradient.png", "textures"),
   ("noise.png", "textures"),
   ("matcap-metallic.png", "textures"),
   ("particle-glow.png", "sprites"),
   ("particle-soft.png", "sprites")]

/-- One iteration of the driver loop: the `try/except Exception` body for
one asset.  An exception from generation or saving is caught here and
turned into a failure report carrying the asset name and the error. -/
def runAsset (attempt : String → Except String Unit) (a : String × String) : Report :=
  match attempt a.1 with
  | Except.ok _ => Report.success a.2 a.1
  | Except.error e => Report.failure a.2 a.1 e

/-- The driver loop over the whole manifest. -/
def driverLoop (attempt : String → Except String Unit) : List Report :=
  assetManifest.map (runAsset attempt)

/-- The driver `main`: runs `ensure_directories` (whose failure is uncaught, so it
aborts the run), then the per-asset loop (whose per-asset failures are
caught). -/
def mainRun (dirs : Except String Unit) (attempt : String → Except String Unit) :
    Except String (List Report) :=
  match dirs with
  | Except.error e => Except.error e
  | Except.ok _ => Except.ok (driverLoop attempt)

/-! ## Helper lemmas -/

theorem pyInt_of_nonneg {K : Type} [LinearOrderedField K] [FloorRing K]
    {q : K} (h : 0 ≤ q) : pyInt q = ⌊q⌋ := by
  rw [pyInt, if_neg (not_lt.2 h)]

theorem pyInt_mono {K : Type} [LinearOrderedField K] [FloorRing K]
    {q r : K} (h : q ≤ r) : pyInt q ≤ pyInt r := by
  rcases lt_or_le q 0 with hq | hq
  · rcases lt_or_le r 0 with hr | hr
    · rw [pyInt, if_pos hq, pyInt, if_pos hr]
      have := Int.floor_le_floor (neg_le_neg h)
      omega
    · rw [pyInt, if_pos hq, pyInt_of_nonneg hr]
      have h1 : (0 : ℤ) ≤ ⌊-q⌋ := Int.floor_nonneg.2 (by linarith)
      have h2 : (0 : ℤ) ≤ ⌊r⌋ := Int.floor_nonneg.2 hr
      omega
  · rw [pyInt_of_nonneg hq, pyInt_of_nonneg (le_trans hq h)]
    exact Int.floor_le_floor h

theorem gradSegment_nonneg (y : ℕ) : 0 ≤ gradSegment y := by
  rw [gradSegment]; positivity

theorem gradIdx_lt_three {y : ℕ} (hy : y < 256) : gradIdx y < 3 := by
  rw [gradIdx, pyInt_of_nonneg (gradSegment_nonneg y)]
  have hy' : (y : ℚ) < 256 := by exact_mod_cast hy
  have hseg : gradSegment y < 3 := by
    rw [gradSegment, div_mul_eq_mul_div, div_lt_iff₀ (by norm_num : (0:ℚ) < 256)]
    linarith
  have hfl : ⌊gradSegment y⌋ < 3 := Int.floor_lt.2 (by exact_mod_cast hseg)
  omega

theorem gradIdx_eval_255 : gradIdx 255 = 2 := by
  rw [gradIdx, gradSegment, pyInt]
  rw [if_neg (by norm_num)]
  norm_num
  decide

theorem gradRowColor_eval_0 : gradRowColor 0 = (26, 0, 51) := by
  norm_num [gradRowColor, gradIdx, gradSegment, pyInt, gradInterp, gradColors]

theorem gradRowColor_eval_255 : gradRowColor 255 = (212, 126, 255) := by
  rw [gradRowColor, if_neg (by rw [gradIdx_eval_255]; omega), gradInterp]
  simp only [gradIdx_eval_255, gradColors, gradSegment]
  norm_num [pyInt]

theorem glowBranch2_eq (m : ℝ) : glowBranch2 m = 255 - 170 * (m - 2/10) := by
  rw [glowBranch2]; ring

theorem glowBranch3_eq (m : ℝ) : glowBranch3 m = 204 - 408 * (m - 5/10) := by
  rw [glowBranch3]; ring

theorem softBranch2_eq (m : ℝ) : softBranch2 m = 153 - (765/2) * (m - 3/10) := by
  rw [softBranch2]; ring

theorem softBranch3_eq (m : ℝ) : softBranch3 m = 459/10 - 153 * (m - 7/10) := by
  rw [softBranch3]; ring

theorem glowAlpha_of_one_le {K : Type} [LinearOrderedField K] [FloorRing K]
    {n : K} (h : 1 ≤ n) : glowAlpha n = 0 := by
  rw [glowAlpha, if_neg (not_lt.2 (le_trans (by norm_num) h)),
    if_neg (not_lt.2 (le_trans (by norm_num) h)), if_neg (not_lt.2 h)]

theorem softAlpha_of_one_le {K : Type} [LinearOrderedField K] [FloorRing K]
    {n : K} (h : 1 ≤ n) : softAlpha n = 0 := by
  rw [softAlpha, if_neg (not_lt.2 (le_trans (by norm_num) h)),
    if_neg (not_lt.2 (le_trans (by norm_num) h)), if_neg (not_lt.2 h)]

theorem glowAlpha_branch2 {n : ℝ} (h1 : 2/10 ≤ n) (h2 : n < 5/10) :
    glowAlpha n = pyInt (glowBranch2 n) := by
  rw [glowAlpha, if_neg (not_lt.2 h1), if_pos h2]

theorem glowAlpha_branch3 {n : ℝ} (h1 : 5/10 ≤ n) (h2 : n < 1) :
    glowAlpha n = pyInt (glowBranch3 n) := by
  rw [glowAlpha, if_neg (not_lt.2 (le_trans (by norm_num) h1)),
    if_neg (not_lt.2 h1), if_pos h2]

theorem softAlpha_branch2 {n : ℝ} (h1 : 3/10 ≤ n) (h2 : n < 7/10) :
    softAlpha n = pyInt (softBranch2 n) := by
  rw [softAlpha, if_neg (not_lt.2 h1), if_pos h2]

theorem softAlpha_branch3 {n : ℝ} (h1 : 7/10 ≤ n) (h2 : n < 1) :
    softAlpha n = pyInt (softBranch3 n) := by
  rw [softAlpha, if_neg (not_lt.2 (le_trans (by norm_num) h1)),
    if_neg (not_lt.2 h1), if_pos h2]

theorem spriteNorm_eq_one {x y : ℕ}
    (h : 1024 ≤ ((x : ℤ) - 32) ^ 2 + ((y : ℤ) - 32) ^ 2) : spriteNorm x y = 1 := by
  have hr : (1024 : ℝ) ≤ ((x : ℝ) - 32) * ((x : ℝ) - 32) + ((y : ℝ) - 32) * ((y : ℝ) - 32) := by
    have h' : ((1024 : ℤ) : ℝ) ≤ ((((x : ℤ) - 32) ^ 2 + ((y : ℤ) - 32) ^ 2 : ℤ) : ℝ) := by
      exact_mod_cast h
    push_cast at h'
    nlinarith [h']
  simp only [spriteNorm]
  have h32 : (32 : ℝ) ≤
      Real.sqrt (((x : ℝ) - 32) * ((x : ℝ) - 32) + ((y : ℝ) - 32) * ((y : ℝ) - 32)) := by
    rw [Real.le_sqrt (by norm_num) (by linarith)]
    nlinarith [hr]
  have hdiv : (1 : ℝ) ≤
      Real.sqrt (((x : ℝ) - 32) * ((x : ℝ) - 32) + ((y : ℝ) - 32) * ((y : ℝ) - 32)) / 32 := by
    rw [le_div_iff₀ (by norm_num : (0 : ℝ) < 32)]
    linarith
  exact min_eq_right hdiv

/-! ## Claim theorems -/

/-- C10: for every row `y < 256`, the index `idx = int((y/256) * 3)` is at
most `2`, strictly below `stopCount - 1 = 3`, so the overflow-guard branch
that returns the last stop unmodified is unreachable and every row colour
comes from the interpolation branch. -/
theorem grad_guard_unreachable (y : ℕ) (hy : y < 256) :
    gradIdx y < 3 ∧ gradRowColor y = gradInterp y := by
  refine ⟨gradIdx_lt_three hy, ?_⟩
  rw [gradRowColor, if_neg (by have := gradIdx_lt_three hy; omega)]

/-- Witness for the C10 theorem at the last row `y = 255`. -/
theorem grad_guard_unreachable_witness :
    255 < 256 ∧ (gradIdx 255 < 3 ∧ gradRowColor 255 = gradInterp 255) :=
  ⟨by norm_num, grad_guard_unreachable 255 (by norm_num)⟩

/-- C1 counterexample: the bottom row `y = 255` of the gradient does not
equal the final stop `stop[3] = (213, 128, 255)`.  Its actual colour is the
truncated interpolation between `stop[2]` and `stop[3]` at `t = 253/256`,
namely `(212, 126, 255)`. -/
theorem grad_last_row_ne_final_stop :
    gradPixel 0 255 = (212, 126, 255) ∧ gradPixel 0 255 ≠ (213, 128, 255) := by
  have h : gradPixel 0 255 = (212, 126, 255) := gradRowColor_eval_255
  exact ⟨h, by rw [h]; decide⟩

/-- C1 (amended): every pixel of row `0` equals `stop[0] = (26, 0, 51)`
exactly, and every pixel of row `255` equals `(212, 126, 255)`, the
truncated interpolation between `stop[2]` and `stop[3]` at `t = 253/256`
(which differs from `stop[3] = (213, 128, 255)` in red and green). -/
theorem grad_boundary_rows (x : ℕ) :
    gradPixel x 0 = gradColors.getD 0 (0, 0, 0) ∧
      gradPixel x 255 = (212, 126, 255) :=
  ⟨gradRowColor_eval_0, gradRowColor_eval_255⟩

/-- C8: gradient horizontal uniformity — in every row `y`, any two columns
`x₁`, `x₂` receive the identical colour, because the row colour is computed
once per row and written to every column. -/
theorem grad_horizontal_uniform (y x₁ x₂ : ℕ) :
    gradPixel x₁ y = gradPixel x₂ y := rfl

/-- C2 counterexample: the two branch formulas of the soft sprite do NOT
agree at the breakpoint `n = 0.7`.  The second branch reaches `0` there
while the third evaluates to `255 * 0.6 * 0.3 = 45.9`, so the profile
jumps by `45.9` at `n = 0.7` (truncated alpha jumps from `0` to `45`). -/
theorem soft_profile_discontinuous_at_seven_tenths :
    softBranch2 ((7 : ℚ)/10) = 0 ∧ softBranch3 ((7 : ℚ)/10) = 459/10 ∧
      softBranch2 ((7 : ℚ)/10) ≠ softBranch3 ((7 : ℚ)/10) :=
  ⟨by norm_num [softBranch2], by norm_num [softBranch3],
   by norm_num [softBranch2, softBranch3]⟩

/-- C2 (amended): for the glow sprite the adjacent branch formulas agree
in value at both breakpoints — `255` at `n = 0.2` and `204` at `n = 0.5` —
and for the soft sprite they agree at `n = 0.3` (value `153`) but NOT at
`n = 0.7`, where the second branch gives `0` and the third `45.9`. -/
theorem sprite_breakpoint_values :
    glowBranch2 ((2 : ℚ)/10) = 255 ∧
    glowBranch2 ((5 : ℚ)/10) = 204 ∧ glowBranch3 ((5 : ℚ)/10) = 204 ∧
    (softBranch1 : ℚ) = 153 ∧ softBranch2 ((3 : ℚ)/10) = 153 ∧
    softBranch2 ((7 : ℚ)/10) = 0 ∧ softBranch3 ((7 : ℚ)/10) = 459/10 := by
  norm_num [glowBranch2, glowBranch3, softBranch1, softBranch2, softBranch3]

/-- C5: for both sprites, every pixel at or beyond the unit radius (in the
64×64 grid, squared distance from the centre `(32, 32)` at least
`32² = 1024`, i.e. normalised distance `n ≥ 1`) has alpha `0` — also stated
directly on the profiles for every `n ≥ 1` — and within each piecewise
segment of either profile, alpha is non-increasing as `n` increases. -/
theorem sprite_alpha_zero_and_monotone :
    (∀ x y : ℕ, 1024 ≤ ((x : ℤ) - 32) ^ 2 + ((y : ℤ) - 32) ^ 2 →
        (glowPixel x y).2.2.2 = 0 ∧ (softPixel x y).2.2.2 = 0) ∧
    (∀ n : ℝ, 1 ≤ n → glowAlpha n = 0 ∧ softAlpha n = 0) ∧
    (∀ n₁ n₂ : ℝ, n₁ ≤ n₂ →
        ((n₂ < 2/10 → glowAlpha n₂ ≤ glowAlpha n₁) ∧
         (2/10 ≤ n₁ → n₂ < 5/10 → glowAlpha n₂ ≤ glowAlpha n₁) ∧
         (5/10 ≤ n₁ → n₂ < 1 → glowAlpha n₂ ≤ glowAlpha n₁) ∧
         (1 ≤ n₁ → glowAlpha n₂ ≤ glowAlpha n₁)) ∧
        ((n₂ < 3/10 → softAlpha n₂ ≤ softAlpha n₁) ∧
         (3/10 ≤ n₁ → n₂ < 7/10 → softAlpha n₂ ≤ softAlpha n₁) ∧
         (7/10 ≤ n₁ → n₂ < 1 → softAlpha n₂ ≤ softAlpha n₁) ∧
         (1 ≤ n₁ → softAlpha n₂ ≤ softAlpha n₁))) := by
  refine ⟨?_, ?_, ?_⟩
  · intro x y h
    have hn := spriteNorm_eq_one h
    constructor
    · show glowAlpha (spriteNorm x y) = 0
      rw [hn]
      exact glowAlpha_of_one_le le_rfl
    · show softAlpha (spriteNorm x y) = 0
      rw [hn]
      exact softAlpha_of_one_le le_rfl
  · intro n h
    exact ⟨glowAlpha_of_one_le h, softAlpha_of_one_le h⟩
  · intro n₁ n₂ h12
    refine ⟨⟨?_, ?_, ?_, ?_⟩, ?_, ?_, ?_, ?_⟩
    · intro h
      rw [glowAlpha, if_pos h, glowAlpha, if_pos (lt_of_le_of_lt h12 h)]
    · intro ha hb
      rw [glowAlpha_branch2 ha (lt_of_le_of_lt h12 hb),
        glowAlpha_branch2 (le_trans ha h12) hb]
      refine pyInt_mono ?_
      rw [glowBranch2_eq, glowBranch2_eq]
      linarith
    · intro ha hb
      rw [glowAlpha_branch3 ha (lt_of_le_of_lt h12 hb),
        glowAlpha_branch3 (le_trans ha h12) hb]
      refine pyInt_mono ?_
      rw [glowBranch3_eq, glowBranch3_eq]
      linarith
    · intro ha
      rw [glowAlpha_of_one_le ha, glowAlpha_of_one_le (le_trans ha h12)]
    · intro h
      rw [softAlpha, if_pos h, softAlpha, if_pos (lt_of_le_of_lt h12 h)]
    · intro ha hb
      rw [softAlpha_branch2 ha (lt_of_le_of_lt h12 hb),
        softAlpha_branch2 (le_trans ha h12) hb]
      refine pyInt_mono ?_
      rw [softBranch2_eq, softBranch2_eq]
      linarith
    · intro ha hb
      rw [softAlpha_branch3 ha (lt_of_le_of_lt h12 hb),
        softAlpha_branch3 (le_trans ha h12) hb]
      refine pyInt_mono ?_
      rw [softBranch3_eq, softBranch3_eq]
      linarith
    · intro ha
      rw [softAlpha_of_one_le ha, softAlpha_of_one_le (le_trans ha h12)]

/-- Witness for the C5 theorem: the corner pixel `(0, 0)` (distance
`32·√2 > 32` from the centre) has alpha `0` in both sprites, and on the
segment `[0.2, 0.5)` the glow alpha at `0.3` is at most the one at `0.25`. -/
theorem sprite_alpha_zero_and_monotone_witness :
    (1024 ≤ ((0 : ℤ) - 32) ^ 2 + ((0 : ℤ) - 32) ^ 2) ∧
    ((glowPixel 0 0).2.2.2 = 0 ∧ (softPixel 0 0).2.2.2 = 0) ∧
    ((1 : ℝ)/4 ≤ 3/10 ∧ glowAlpha ((3 : ℝ)/10) ≤ glowAlpha ((1 : ℝ)/4)) :=
  ⟨by norm_num,
   sprite_alpha_zero_and_monotone.1 0 0 (by norm_num),
   by norm_num,
   ((sprite_alpha_zero_and_monotone.2.2 (1/4) (3/10) (by norm_num)).1).2.1
     (by norm_num) (by norm_num)⟩

theorem matcapNorm_nonneg (x y : ℕ) : 0 ≤ matcapNorm x y :=
  le_min (div_nonneg (Real.sqrt_nonneg _) (Real.sqrt_nonneg _)) zero_le_one

theorem matcapNorm_le_one (x y : ℕ) : matcapNorm x y ≤ 1 := min_le_right _ _

theorem matcapNorm_center : matcapNorm 128 128 = 0 := by
  simp only [matcapNorm]
  norm_num

theorem matcap_channel_bounds {c n : ℝ} (hc0 : 0 ≤ c) (hc1 : c ≤ 1)
    (hn0 : 0 ≤ n) (hn1 : n ≤ 1) :
    0 ≤ pyInt (255 * (1 - n * c)) ∧ pyInt (255 * (1 - n * c)) ≤ 255 := by
  have hq0 : (0 : ℝ) ≤ 255 * (1 - n * c) := by nlinarith
  have hq255 : 255 * (1 - n * c) ≤ 255 := by nlinarith
  rw [pyInt_of_nonneg hq0]
  refine ⟨Int.floor_nonneg.2 hq0, ?_⟩
  calc ⌊255 * (1 - n * c)⌋ ≤ ⌊(255 : ℝ)⌋ := Int.floor_le_floor hq255
    _ = 255 := by norm_num

/-- C6: every matcap pixel equals the claim formula
`(int(255*(1 - n*0.8)), int(255*(1 - n*0.8)), int(255*(1 - n*0.5)))` at its
clamped normalised distance `n`; every channel lies in `[0, 255]` with no
explicit clamp; and the centre pixel is `(255, 255, 255)`. -/
theorem matcap_formula_bounds_center :
    (∀ x y : ℕ, matcapPixel x y = matcapClaimFormula (matcapNorm x y)) ∧
    (∀ x y : ℕ,
        0 ≤ (matcapPixel x y).1 ∧ (matcapPixel x y).1 ≤ 255 ∧
        0 ≤ (matcapPixel x y).2.1 ∧ (matcapPixel x y).2.1 ≤ 255 ∧
        0 ≤ (matcapPixel x y).2.2 ∧ (matcapPixel x y).2.2 ≤ 255) ∧
    matcapPixel 128 128 = (255, 255, 255) := by
  refine ⟨fun x y => rfl, ?_, ?_⟩
  · intro x y
    have h0 := matcapNorm_nonneg x y
    have h1 := matcapNorm_le_one x y
    have hrg := matcap_channel_bounds (by norm_num : (0:ℝ) ≤ 8/10)
      (by norm_num : (8:ℝ)/10 ≤ 1) h0 h1
    have hb := matcap_channel_bounds (by norm_num : (0:ℝ) ≤ 5/10)
      (by norm_num : (5:ℝ)/10 ≤ 1) h0 h1
    exact ⟨hrg.1, hrg.2, hrg.1, hrg.2, hb.1, hb.2⟩
  · show ((pyInt (255 * (1 - matcapNorm 128 128 * (8/10))) : ℤ),
        pyInt (255 * (1 - matcapNorm 128 128 * (8/10))),
        pyInt (255 * (1 - matcapNorm 128 128 * (5/10)))) = (255, 255, 255)
    rw [matcapNorm_center]
    norm_num [pyInt]

/-- C7: matcap radial symmetry — two pixels at the same squared distance
from the centre `(128, 128)` receive the same colour, because the colour
depends on the position only through the distance. -/
theorem matcap_radial_symmetry (x₁ y₁ x₂ y₂ : ℕ)
    (h : ((x₁ : ℤ) - 128) ^ 2 + ((y₁ : ℤ) - 128) ^ 2
       = ((x₂ : ℤ) - 128) ^ 2 + ((y₂ : ℤ) - 128) ^ 2) :
    matcapPixel x₁ y₁ = matcapPixel x₂ y₂ := by
  have hr : ((x₁ : ℝ) - 128) * ((x₁ : ℝ) - 128) + ((y₁ : ℝ) - 128) * ((y₁ : ℝ) - 128)
      = ((x₂ : ℝ) - 128) * ((x₂ : ℝ) - 128) + ((y₂ : ℝ) - 128) * ((y₂ : ℝ) - 128) := by
    have h' := congrArg (fun z : ℤ => (z : ℝ)) h
    push_cast at h'
    linear_combination h'
  have key : matcapNorm x₁ y₁ = matcapNorm x₂ y₂ := by
    simp only [matcapNorm]
    rw [hr]
  simp only [matcapPixel, key]

/-- Witness for the C7 theorem: the pixels `(0, 128)` and `(128, 0)` are
equidistant from the centre and get equal colours. -/
theorem matcap_radial_symmetry_witness :
    (((0 : ℤ) - 128) ^ 2 + ((128 : ℤ) - 128) ^ 2
       = ((128 : ℤ) - 128) ^ 2 + ((0 : ℤ) - 128) ^ 2) ∧
    matcapPixel 0 128 = matcapPixel 128 0 :=
  ⟨by norm_num, matcap_radial_symmetry 0 128 128 0 (by norm_num)⟩

/-- C9: for every choice of the random source with values in `[0, 255]`
and every Gaussian blur modelled as a map sending 8-bit grids to 8-bit
grids, every pixel of the noise texture lies in `[0, 255]` (lower bound by
the pixel being a natural number). -/
theorem noise_pixels_bounded (rand : Grid) (blur : Grid → Grid)
    (hr : ∀ x y, rand x y ≤ 255) (hb : Preserves8Bit blur) :
    ∀ x y : ℕ, noisePixel rand blur x y ≤ 255 :=
  fun x y => hb rand hr x y

/-- Witness for the C9 theorem: a constant random source and the identity
blur. -/
theorem noise_pixels_bounded_witness :
    ((200 : ℕ) ≤ 255) ∧ noisePixel (fun _ _ => 200) id 3 5 ≤ 255 :=
  ⟨by norm_num,
   noise_pixels_bounded (fun _ _ => 200) id (fun _ _ => by norm_num)
     (fun g hg x y => hg x y) 3 5⟩

/-- C3 counterexample: with a read-only destination root — every directory
creation and file write raising — the run does not terminate normally with
five Persistence Failure reports: `ensure_directories()` is called outside
the per-asset `try/except`, so its exception is uncaught and the run
crashes before any manifest entry is attempted. -/
theorem readonly_root_crashes :
    mainRun (Except.error ("EACCES")) (fun _ => Except.error ("EACCES"))
        = Except.error ("EACCES") ∧
      ¬ ∃ rs : List Report,
        mainRun (Except.error ("EACCES")) (fun _ => Except.error ("EACCES"))
          = Except.ok rs := by
  refine ⟨rfl, ?_⟩
  rintro ⟨rs, hrs⟩
  simp [mainRun] at hrs

/-- C3 (amended): if directory creation fails, the run terminates with
that error uncaught before attempting any manifest entry; if directory
creation succeeds and every file write fails, all five manifest entries
are still attempted, each reports a Persistence Failure with its asset
name and error detail, and the run terminates normally. -/
theorem readonly_root_behaviour :
    (∀ (e : String) (attempt : String → Except String Unit),
        mainRun (Except.error e) attempt = Except.error e) ∧
    (∀ f : String → String,
        mainRun (Except.ok ()) (fun nm => Except.error (f nm)) =
          Except.ok (assetManifest.map (fun a => Report.failure a.2 a.1 (f a.1)))) := by
  refine ⟨fun e attempt => rfl, fun f => ?_⟩
  simp [mainRun, driverLoop, runAsset, assetManifest]

/-- C4: per-asset failure isolation in the driver loop.  Whatever subset
of assets fails (any `attempt`), the loop ends normally with exactly one
report per manifest entry, in order; an entry whose attempt raised `e` is
reported as a failure carrying its asset name and `e`, and one whose
attempt succeeded is reported as a success — so every subsequent entry is
attempted and the loop never aborts early. -/
theorem driver_per_asset_isolation (attempt : String → Except String Unit) :
    mainRun (Except.ok ()) attempt = Except.ok (driverLoop attempt) ∧
    (driverLoop attempt).length = assetManifest.length ∧
    (∀ i, i < assetManifest.length →
      (∀ e, attempt (assetManifest.getD i (("") , ("")) ).1 = Except.error e →
        (driverLoop attempt).getD i default =
          Report.failure (assetManifest.getD i (("") , ("")) ).2
            (assetManifest.getD i (("") , ("")) ).1 e) ∧
      (attempt (assetManifest.getD i (("") , ("")) ).1 = Except.ok () →
        (driverLoop attempt).getD i default =
          Report.success (assetManifest.getD i (("") , ("")) ).2
            (assetManifest.getD i (("") , ("")) ).1)) := by
  refine ⟨rfl, rfl, ?_⟩
  intro i hi
  have h5 : i < 5 := by simpa [assetManifest] using hi
  interval_cases i <;>
    exact ⟨fun e he => by
        simp only [assetManifest] at he
        simp at he
        simp [driverLoop, runAsset, assetManifest, he],
      fun hok => by
        simp only [assetManifest] at hok
        simp at hok
        simp [driverLoop, runAsset, assetManifest, hok]⟩

/-- Witness for the C4 theorem: an environment in which only the second
asset (noise.png) fails; its loop entry is the failure report with its
name and error, and the first entry is a success report. -/
theorem driver_per_asset_isolation_witness :
    (1 < assetManifest.length) ∧
    (driverLoop (fun nm => if nm = "noise.png" then Except.error ("disk full")
        else Except.ok ())).getD 1 default =
      Report.failure ("textures") ("noise.png") ("disk full") :=
  ⟨by simp [assetManifest],
   ((driver_per_asset_isolation
        (fun nm => if nm = "noise.png" then Except.error ("disk full")
          else Except.ok ())).2.2 1 (by simp [assetManifest])).1
      ("disk full") (by simp [assetManifest])⟩

end PrismAssets
